import Mathlib

/-!
Verification development for the harvest / reconcile engine of the
`assistente-tributario` repository (app `coleta`).

The Python sources embedded here:
- `backend/apps/coleta/models.py` (`FonteDados`, `DocumentoFonte`,
  `LogColeta`, `DocumentoFonte.calcular_hash`, `LogColeta.calcular_duracao`);
- `backend/apps/coleta/scraper_base.py` (`ScraperBase._delay`,
  `_criar_log`, `_finalizar_log`, `_obter_caminho_arquivo`,
  `_salvar_documento`, `executar`);
- `backend/apps/coleta/scrapers/cosit_scraper.py` (`CositScraper`).

Modelling conventions: Django ORM state, the raw-file store, the scraper
counters and the event history are threaded through an explicit `Estado`
record.  `timezone.now()` / `datetime.now()` read a clock sequence
`tempo : Nat → Nat` at a running index (each call consumes one index).
Fallible primitives (hashing, ORM reads and writes, file writes) consult
an injected failure oracle `falha : PontoFalha → Bool`; a firing point
behaves as the raised exception that the enclosing `except` catches.
Network fetches and the BeautifulSoup link extraction are external
collaborators, passed in as oracle functions.
-/

/-! ## UTF-8 encoding (Python `str.encode('utf-8')`) -/

/-- UTF-8 byte sequence of one code point, as in CPython `encode('utf-8')`. -/
def utf8Char (c : Char) : List Nat :=
  let n := c.toNat
  if n < 0x80 then [n]
  else if n < 0x800 then [0xC0 + n / 0x40, 0x80 + n % 0x40]
  else if n < 0x10000 then
    [0xE0 + n / 0x1000, 0x80 + n / 0x40 % 0x40, 0x80 + n % 0x40]
  else
    [0xF0 + n / 0x40000, 0x80 + n / 0x1000 % 0x40, 0x80 + n / 0x40 % 0x40,
      0x80 + n % 0x40]

/-- All UTF-8 bytes of a string (`conteudo.encode('utf-8')`). -/
def utf8Bytes (s : String) : List Nat :=
  s.toList.flatMap utf8Char

/-! ## SHA-256 (`hashlib.sha256`) -/

/-- 32-bit right rotation on a word below `2 ^ 32`. -/
def rotr (n x : Nat) : Nat :=
  (x / 2 ^ n + x % 2 ^ n * 2 ^ (32 - n)) % 2 ^ 32

/-- Logical right shift. -/
def shr (n x : Nat) : Nat := x / 2 ^ n

/-- SHA-256 `Ch(x, y, z)`; `~x` is the 32-bit complement. -/
def sha2Ch (x y z : Nat) : Nat :=
  (x &&& y) ^^^ ((x ^^^ 0xFFFFFFFF) &&& z)

/-- SHA-256 `Maj(x, y, z)`. -/
def sha2Maj (x y z : Nat) : Nat :=
  (x &&& y) ^^^ (x &&& z) ^^^ (y &&& z)

/-- SHA-256 big sigma 0. -/
def bsig0 (x : Nat) : Nat := rotr 2 x ^^^ rotr 13 x ^^^ rotr 22 x

/-- SHA-256 big sigma 1. -/
def bsig1 (x : Nat) : Nat := rotr 6 x ^^^ rotr 11 x ^^^ rotr 25 x

/-- SHA-256 small sigma 0. -/
def ssig0 (x : Nat) : Nat := rotr 7 x ^^^ rotr 18 x ^^^ shr 3 x

/-- SHA-256 small sigma 1. -/
def ssig1 (x : Nat) : Nat := rotr 17 x ^^^ rotr 19 x ^^^ shr 10 x

/-- The 64 SHA-256 round constants. -/
def sha2K : List Nat :=
  [1116352408, 1899447441, 3049323471,
   3921009573, 961987163, 1508970993,
   2453635748, 2870763221, 3624381080,
   310598401, 607225278, 1426881987,
   1925078388, 2162078206, 2614888103,
   3248222580, 3835390401, 4022224774,
   264347078, 604807628, 770255983,
   1249150122, 1555081692, 1996064986,
   2554220882, 2821834349, 2952996808,
   3210313671, 3336571891, 3584528711,
   113926993, 338241895, 666307205,
   773529912, 1294757372, 1396182291,
   1695183700, 1986661051, 2177026350,
   2456956037, 2730485921, 2820302411,
   3259730800, 3345764771, 3516065817,
   3600352804, 4094571909, 275423344,
   430227734, 506948616, 659060556,
   883997877, 958139571, 1322822218,
   1537002063, 1747873779, 1955562222,
   2024104815, 2227730452, 2361852424,
   2428436474, 2756734187, 3204031479,
   3329325298]

/-- Hash state: the eight 32-bit working words. -/
structure OitoPalavras where
  a : Nat
  b : Nat
  c : Nat
  d : Nat
  e : Nat
  f : Nat
  g : Nat
  h : Nat
deriving Repr, DecidableEq

/-- SHA-256 initial hash value. -/
def sha2H0 : OitoPalavras :=
  ⟨1779033703, 3144134277, 1013904242,
   2773480762, 1359893119, 2600822924,
   528734635, 1541459225⟩

/-- Big-endian 64-bit byte encoding of the message bit length. -/
def comprimento64 (bits : Nat) : List Nat :=
  [bits / 2 ^ 56 % 256, bits / 2 ^ 48 % 256, bits / 2 ^ 40 % 256,
   bits / 2 ^ 32 % 256, bits / 2 ^ 24 % 256, bits / 2 ^ 16 % 256,
   bits / 2 ^ 8 % 256, bits % 256]

/-- SHA-256 message padding. -/
def preencher (msg : List Nat) : List Nat :=
  msg ++ [0x80] ++ List.replicate ((119 - msg.length % 64) % 64) 0
    ++ comprimento64 (8 * msg.length)

/-- Split a padded message into its 64-byte blocks. -/
def blocos (l : List Nat) : List (List Nat) :=
  (List.range (l.length / 64)).map fun i => (l.drop (64 * i)).take 64

/-- The sixteen 32-bit big-endian words of one 64-byte block. -/
def palavras16 (bloco : List Nat) : List Nat :=
  (List.range 16).map fun i =>
    bloco.getD (4 * i) 0 * 2 ^ 24 + bloco.getD (4 * i + 1) 0 * 2 ^ 16 +
      bloco.getD (4 * i + 2) 0 * 2 ^ 8 + bloco.getD (4 * i + 3) 0

/-- Message-schedule expansion from 16 to 64 words. -/
def expandir (w16 : List Nat) : List Nat :=
  (List.range 48).foldl
    (fun w _ =>
      let t := w.length
      w ++ [(ssig1 (w.getD (t - 2) 0) + w.getD (t - 7) 0 +
             ssig0 (w.getD (t - 15) 0) + w.getD (t - 16) 0) % 2 ^ 32])
    w16

/-- One SHA-256 compression round; the pair is (round constant, schedule word). -/
def passo (st : OitoPalavras) (kw : Nat × Nat) : OitoPalavras :=
  let t1 := (st.h + bsig1 st.e + sha2Ch st.e st.f st.g + kw.1 + kw.2) % 2 ^ 32
  let t2 := (bsig0 st.a + sha2Maj st.a st.b st.c) % 2 ^ 32
  ⟨(t1 + t2) % 2 ^ 32, st.a, st.b, st.c, (st.d + t1) % 2 ^ 32, st.e, st.f, st.g⟩

/-- Compress one 64-byte block into the running hash state. -/
def comprimirBloco (h0 : OitoPalavras) (bloco : List Nat) : OitoPalavras :=
  let w := expandir (palavras16 bloco)
  let st := (sha2K.zip w).foldl passo h0
  ⟨(h0.a + st.a) % 2 ^ 32, (h0.b + st.b) % 2 ^ 32, (h0.c + st.c) % 2 ^ 32,
   (h0.d + st.d) % 2 ^ 32, (h0.e + st.e) % 2 ^ 32, (h0.f + st.f) % 2 ^ 32,
   (h0.g + st.g) % 2 ^ 32, (h0.h + st.h) % 2 ^ 32⟩

/-- SHA-256 of a byte list, as the final eight words. -/
def sha256Palavras (msg : List Nat) : OitoPalavras :=
  (blocos (preencher msg)).foldl comprimirBloco sha2H0

/-- Big-endian bytes of one 32-bit word. -/
def palavraBytes (w : Nat) : List Nat :=
  [w / 2 ^ 24 % 256, w / 2 ^ 16 % 256, w / 2 ^ 8 % 256, w % 256]

/-- The 32 digest bytes of a hash state. -/
def digestBytes (st : OitoPalavras) : List Nat :=
  palavraBytes st.a ++ palavraBytes st.b ++ palavraBytes st.c ++
    palavraBytes st.d ++ palavraBytes st.e ++ palavraBytes st.f ++
    palavraBytes st.g ++ palavraBytes st.h

/-- Lowercase hex digit of a value below 16 (`hexdigest` alphabet). -/
def hexDigito (n : Nat) : Char :=
  if n < 10 then Char.ofNat (48 + n) else Char.ofNat (87 + n)

/-- Lowercase hex string of a byte list (`hexdigest`). -/
def paraHex (bs : List Nat) : String :=
  String.mk (bs.flatMap fun b => [hexDigito (b / 16), hexDigito (b % 16)])

/-! ## Data model (`models.py`) -/

/-- `FonteDados` (models.py): the configured source, restricted to the
fields the embedded operations read or write. -/
structure FonteDados where
  nome : String
  tipo : String
  url_base : String
  ativo : Bool
  status : String
  ultima_coleta : Option Nat
deriving Repr, DecidableEq

/-- `DocumentoFonte` (models.py): one harvested catalog record. -/
structure DocumentoFonte where
  fonte : String
  titulo : String
  tipo_documento : String
  url_origem : String
  identificador_externo : String
  hash_conteudo : String
  caminho_arquivo : String
  tamanho_bytes : Nat
  data_publicacao : Option Nat
  orgao_emissor : String
  numero_documento : String
  status : String
  versao : Nat
deriving Repr, DecidableEq

/-- `DocumentoFonte.calcular_hash`: SHA-256 hexdigest of the UTF-8 bytes. -/
def DocumentoFonte.calcular_hash (conteudo : String) : String :=
  paraHex (digestBytes (sha256Palavras (utf8Bytes conteudo)))

/-- `LogColeta` (models.py): the audited run record. -/
structure LogColeta where
  status : String
  iniciado_em : Nat
  finalizado_em : Option Nat
  duracao_segundos : Option Int
  documentos_novos : Nat
  documentos_atualizados : Nat
  documentos_ignorados : Nat
  documentos_erro : Nat
  mensagem : String
  erro_detalhe : String
deriving Repr, DecidableEq

/-- `LogColeta.calcular_duracao`: sets the duration when the end time is
set (`iniciado_em`, a datetime, is always truthy in the source guard). -/
def LogColeta.calcular_duracao (log : LogColeta) : LogColeta :=
  match log.finalizado_em with
  | some fim => { log with duracao_segundos := some ((fim : Int) - (log.iniciado_em : Int)) }
  | none => log

/-- Byte length of the UTF-8 encoding (`len(conteudo.encode('utf-8'))`). -/
def utf8Tamanho (conteudo : String) : Nat :=
  (utf8Bytes conteudo).length

/-! ## Scraper state

The mutable pieces of one `ScraperBase` execution: the Django tables, the
raw-file store, the run log, the four counters, the clock, and the event
history used to state temporal claims.
-/

/-- Observable events of one run, in chronological order. -/
inductive Evento where
  /-- An outbound network request (`self.session.get`). -/
  | requisicao (url : String)
  /-- The rate-limit pause (`self._delay()`). -/
  | pausa
  /-- A raw-content write (`caminho.write_text(conteudo)`). -/
  | escrita (caminho : String) (conteudo : String)
  /-- A catalog row commit (`save()` / `objects.create`). -/
  | gravacao (doc : DocumentoFonte)
  /-- The run-log finalization commit (`self.log.save()` in `_finalizar_log`). -/
  | fechamento
deriving Repr, DecidableEq

/-- The whole mutable state threaded through the embedded operations. -/
structure Estado where
  fonte : FonteDados
  db : List DocumentoFonte
  arquivos : List (String × String)
  log : Option LogColeta
  docs_novos : Nat
  docs_atualizados : Nat
  docs_ignorados : Nat
  docs_erro : Nat
  tempo : Nat → Nat
  tique : Nat
  eventos : List Evento

/-- One `timezone.now()` / `datetime.now()` call: read the clock sequence
and advance the call index. -/
def agora (e : Estado) : Nat × Estado :=
  (e.tempo e.tique, { e with tique := e.tique + 1 })

/-- Append one event to the history. -/
def registrarEvento (ev : Evento) (e : Estado) : Estado :=
  { e with eventos := e.eventos ++ [ev] }

/-- Content-store lookup by path. -/
def arquivoDe (arqs : List (String × String)) (caminho : String) : Option String :=
  (arqs.find? fun par => par.1 == caminho).map Prod.snd

/-- `caminho.write_text(conteudo, encoding='utf-8')`: overwrite the path. -/
def escreverArquivo (caminho conteudo : String) (e : Estado) : Estado :=
  registrarEvento (.escrita caminho conteudo)
    { e with arquivos := (caminho, conteudo) :: e.arquivos }

/-- Django `save()` on a fetched row: replace the row carrying the same
unique `(fonte, identificador_externo)` key. -/
def gravarDocumento (doc : DocumentoFonte) (e : Estado) : Estado :=
  registrarEvento (.gravacao doc)
    { e with db := e.db.map fun d =>
        if d.fonte == doc.fonte && d.identificador_externo == doc.identificador_externo
        then doc else d }

/-- Django `objects.create`: append a new row. -/
def criarDocumento (doc : DocumentoFonte) (e : Estado) : Estado :=
  registrarEvento (.gravacao doc) { e with db := e.db ++ [doc] }

/-- Result of `DocumentoFonte.objects.get(fonte=..., identificador_externo=...)`. -/
inductive Busca where
  /-- Exactly one row matched. -/
  | achado (doc : DocumentoFonte)
  /-- No row matched (`DoesNotExist`). -/
  | ausente
  /-- Several rows matched (`MultipleObjectsReturned`, an uncaught-by-the-inner-`except` error). -/
  | multiplo
deriving Repr, DecidableEq

/-- The ORM lookup by the unique pair. -/
def buscarDocumento (db : List DocumentoFonte) (fonteNome identificador : String) : Busca :=
  match db.filter (fun d =>
      d.fonte == fonteNome && d.identificador_externo == identificador) with
  | [] => .ausente
  | [d] => .achado d
  | _ :: _ :: _ => .multiplo

/-! ## File paths (`_obter_caminho_arquivo`) -/

/-- Python `.lower()` restricted to the alphabet the sources use. -/
def charMinuscula (c : Char) : Char :=
  if c.toNat ≥ 65 ∧ c.toNat ≤ 90 then Char.ofNat (c.toNat + 32)
  else if c = 'Á' then 'á' else if c = 'Â' then 'â' else if c = 'Ã' then 'ã'
  else if c = 'À' then 'à' else if c = 'Ç' then 'ç' else if c = 'É' then 'é'
  else if c = 'Ê' then 'ê' else if c = 'Í' then 'í' else if c = 'Ó' then 'ó'
  else if c = 'Ô' then 'ô' else if c = 'Õ' then 'õ' else if c = 'Ú' then 'ú'
  else c

/-- Python `str.lower()`. -/
def paraMinusculas (s : String) : String :=
  String.mk (s.toList.map charMinuscula)

/-- `self.fonte.nome.lower().replace(' ', '_')`. -/
def nomeDiretorio (nome : String) : String :=
  String.mk (nome.toList.map fun c =>
    if charMinuscula c = ' ' then '_' else charMinuscula c)

/-- `identificador.replace('/', '_').replace('\\', '_')`. -/
def sanearId (identificador : String) : String :=
  String.mk (identificador.toList.map fun c =>
    if c = '/' ∨ c = '\\' then '_' else c)

/-- Calendar year of an abstract clock value. -/
def anoDe (t : Nat) : Nat := 2020 + t / 12

/-- Calendar month of an abstract clock value. -/
def mesDe (t : Nat) : Nat := t % 12 + 1

/-- Python `f"..:02d"` zero padding. -/
def doisDigitos (m : Nat) : String :=
  if m < 10 then "0" ++ toString m else toString m

/-- `_obter_caminho_arquivo`, as the path relative to the project root
(the record stores `caminho.relative_to(BASE_DIR.parent)`, which strips
the same absolute prefix the store adds). -/
def obter_caminho_arquivo (fonteNome : String) (t : Nat)
    (identificador extensao : String) : String :=
  "data/raw/" ++ nomeDiretorio fonteNome ++ "/" ++ toString (anoDe t) ++ "/"
    ++ doisDigitos (mesDe t) ++ "/" ++ sanearId identificador ++ "." ++ extensao

/-! ## `_salvar_documento` -/

/-- Optional metadata dictionary handed to `_salvar_documento`; a `some`
field is a present dictionary key. -/
structure Metadados where
  data_publicacao : Option Nat
  orgao_emissor : Option String
  numero_documento : Option String
deriving Repr, DecidableEq

/-- The fallible primitives inside `_salvar_documento`, in source order:
hashing, the ORM lookup, the first `save()` of the update branch, the
file write of the update branch, the second `save()` of the update
branch, the file write of the create branch, `objects.create`. -/
inductive PontoFalha where
  | hash
  | consulta
  | gravacaoAtual
  | escritaAtual
  | gravacaoFinal
  | escritaNova
  | criacao
deriving Repr, DecidableEq

/-- The `except Exception` tail of `_salvar_documento`: count the error
and yield no record. -/
def pontoErro (e : Estado) : Option DocumentoFonte × Estado :=
  (none, { e with docs_erro := e.docs_erro + 1 })

/-- Lines 197–203: copy the provided metadata keys onto the record. -/
def aplicarMetadados (m : Metadados) (doc : DocumentoFonte) : DocumentoFonte :=
  let doc := match m.data_publicacao with
    | some v => { doc with data_publicacao := some v }
    | none => doc
  let doc := match m.orgao_emissor with
    | some v => { doc with orgao_emissor := v }
    | none => doc
  match m.numero_documento with
  | some v => { doc with numero_documento := v }
  | none => doc

/-- `ScraperBase._salvar_documento`, with the failure oracle deciding
which fallible primitive (if any) raises. -/
def salvar_documento (falha : PontoFalha → Bool)
    (titulo conteudo url identificador tipo_documento : String)
    (metadados : Option Metadados) (e : Estado) :
    Option DocumentoFonte × Estado :=
  if falha .hash then pontoErro e else
  let hash_atual := DocumentoFonte.calcular_hash conteudo
  if falha .consulta then pontoErro e else
  match buscarDocumento e.db e.fonte.nome identificador with
  | .multiplo => pontoErro e
  | .achado doc =>
      if doc.hash_conteudo == hash_atual then
        (some doc, { e with docs_ignorados := e.docs_ignorados + 1 })
      else
        let base : DocumentoFonte :=
          { doc with hash_conteudo := hash_atual, versao := doc.versao + 1,
                     titulo := titulo, url_origem := url, status := "coletado" }
        let doc1 := match metadados with
          | some m => aplicarMetadados m base
          | none => base
        if falha .gravacaoAtual then pontoErro e else
        let e1 := gravarDocumento doc1 e
        let e1 := { e1 with docs_atualizados := e1.docs_atualizados + 1 }
        if falha .escritaAtual then pontoErro e1 else
        let par := agora e1
        let caminho := obter_caminho_arquivo par.2.fonte.nome par.1 identificador "html"
        let e2 := escreverArquivo caminho conteudo par.2
        let doc2 : DocumentoFonte :=
          { doc1 with caminho_arquivo := caminho,
                      tamanho_bytes := utf8Tamanho conteudo }
        if falha .gravacaoFinal then pontoErro e2 else
        (some doc2, gravarDocumento doc2 e2)
  | .ausente =>
      if falha .escritaNova then pontoErro e else
      let par := agora e
      let caminho := obter_caminho_arquivo par.2.fonte.nome par.1 identificador "html"
      let e1 := escreverArquivo caminho conteudo par.2
      if falha .criacao then pontoErro e1 else
      let docNovo : DocumentoFonte :=
        { fonte := e1.fonte.nome, titulo := titulo,
          tipo_documento := tipo_documento, url_origem := url,
          identificador_externo := identificador,
          hash_conteudo := DocumentoFonte.calcular_hash conteudo,
          caminho_arquivo := caminho,
          tamanho_bytes := utf8Tamanho conteudo,
          data_publicacao := metadados.bind Metadados.data_publicacao,
          orgao_emissor := (metadados.bind Metadados.orgao_emissor).getD "",
          numero_documento := (metadados.bind Metadados.numero_documento).getD "",
          status := "coletado", versao := 1 }
      let e2 := criarDocumento docNovo e1
      (some docNovo, { e2 with docs_novos := e2.docs_novos + 1 })

/-- The never-firing failure oracle: the run in which every primitive
succeeds. -/
def semFalha : PontoFalha → Bool := fun _ => false

/-! ## `CositScraper` (cosit_scraper.py)

Network fetches (`self.session.get`) are an oracle
`rede : String → Option String` (`none` is any request failure caught by
`_baixar_documento`), and BeautifulSoup's anchor extraction
(`soup.find_all('a', href=True)`) is an oracle
`sopa : String → List (String × String)` yielding `(href, texto)` pairs.
-/

/-- Python substring containment (`agulha in s`). -/
def listaContida (agulha : List Char) : List Char → Bool
  | [] => agulha.isEmpty
  | c :: resto => agulha.isPrefixOf (c :: resto) || listaContida agulha resto

/-- Substring containment on strings. -/
def contemSub (agulha s : String) : Bool :=
  listaContida agulha.toList s.toList

/-- `CositScraper.BASE_URL`. -/
def BASE_URL : String :=
  "https://www.gov.br/receitafederal/pt-br/acesso-a-informacao/legislacao/solucoes-de-consulta"

/-- `CositScraper.validar_configuracao`. -/
def validar_configuracao (fonte : FonteDados) : Bool :=
  if fonte.url_base == "" then false
  else if fonte.tipo != "web" then false
  else true

/-- `CositScraper._obter_lista_anos` given `datetime.now().year`. -/
def obter_lista_anos (ano_atual : Nat) : List Nat :=
  [ano_atual, ano_atual - 1]

/-- `CositScraper._construir_url_ano`. -/
def construir_url_ano (ano : Nat) : String :=
  BASE_URL ++ "/" ++ toString ano

/-- `CositScraper._e_solucao_consulta`. -/
def e_solucao_consulta (texto href : String) : Bool :=
  let texto_lower := paraMinusculas texto
  let href_lower := paraMinusculas href
  if contemSub "solução de consulta" texto_lower
      || contemSub "solucao de consulta" texto_lower then true
  else if contemSub "cosit" texto_lower
      && (contemSub "nº" texto_lower || contemSub "n°" texto_lower
          || contemSub "no" texto_lower) then true
  else if href_lower.endsWith ".pdf" && contemSub "consul" href_lower then true
  else false

/-- Python `\s` on the ASCII range. -/
def ehEspacoPy (c : Char) : Bool :=
  c = ' ' || c = '\t' || c = '\n' || c = '\r' || c = '\x0b' || c = '\x0c'

/-- One anchored attempt of `re.search(r'n[°º]?\s*(\d+)(?:/(\d{4}))?', texto,
re.IGNORECASE)` at the head of the character list: returns the two capture
groups on a hit. -/
def tentarCasar : List Char → Option (String × Option String)
  | [] => none
  | c :: resto =>
      if c = 'n' ∨ c = 'N' then
        let resto2 := match resto with
          | d :: r => if d = '°' ∨ d = 'º' then r else d :: r
          | [] => []
        let resto3 := resto2.dropWhile ehEspacoPy
        let digitos := resto3.takeWhile Char.isDigit
        if digitos.isEmpty then none
        else
          let resto4 := resto3.drop digitos.length
          let grupoAno := match resto4 with
            | '/' :: r =>
                if (r.take 4).length = 4 ∧ (r.take 4).all Char.isDigit
                then some (String.mk (r.take 4)) else none
            | _ => none
          some (String.mk digitos, grupoAno)
      else none

/-- `re.search`: first position (left to right) where the pattern matches. -/
def buscarNumero : List Char → Option (String × Option String)
  | [] => none
  | c :: cs =>
      match tentarCasar (c :: cs) with
      | some r => some r
      | none => buscarNumero cs

/-- Python `str.zfill` for the nonnegative identifiers used here. -/
def zfill (largura : Nat) (s : String) : String :=
  if s.length < largura
  then String.mk (List.replicate (largura - s.length) '0') ++ s
  else s

/-- Python `int()` on a decimal-digit string. -/
def digitosParaNat (s : String) : Nat :=
  s.toList.foldl (fun acc c => acc * 10 + (c.toNat - 48)) 0

/-- The candidate dictionary built by `_extrair_info_documento`. -/
structure Candidato where
  identificador : String
  titulo : String
  url : String
  numero : String
  ano : Nat
  tipo : String
deriving Repr, DecidableEq

/-- `CositScraper._extrair_info_documento` (the unused `link_element`
argument is dropped). -/
def extrair_info_documento (href texto : String) (ano : Nat) : Option Candidato :=
  match buscarNumero texto.toList with
  | none => none
  | some par =>
      let numero := par.1
      let ano_doc := par.2.getD (toString ano)
      let url_completa :=
        if href.startsWith "http" then href
        else if href.startsWith "/" then "https://www.gov.br" ++ href
        else BASE_URL ++ "/" ++ href
      some { identificador := "cosit_" ++ ano_doc ++ "_" ++ zfill 4 numero,
             titulo := String.mk (texto.toList.take 500),
             url := url_completa, numero := numero,
             ano := digitosParaNat ano_doc, tipo := "consulta" }

/-- `CositScraper._parsear_pagina_ano` after BeautifulSoup produced the
`(href, texto)` anchor pairs. -/
def parsear_pagina_ano (links : List (String × String)) (ano : Nat) :
    List Candidato :=
  (links.filter fun par => e_solucao_consulta par.2 par.1).filterMap
    fun par => extrair_info_documento par.1 par.2 ano

/-- `ScraperBase._delay` (the jittered sleep, observable as one pause). -/
def delay (e : Estado) : Estado := registrarEvento .pausa e

/-- `CositScraper._baixar_documento`: one outbound request; the oracle
answer is the response text, or `none` for the caught request error. -/
def baixar_documento (rede : String → Option String) (url : String)
    (e : Estado) : Option String × Estado :=
  (rede url, registrarEvento (.requisicao url) e)

/-- Python falsiness of the downloaded text (`if not conteudo:`). -/
def conteudoVazio : Option String → Bool
  | none => true
  | some s => s == ""

/-- The body of the inner candidate loop of `CositScraper.coletar`; the
accumulator is `(total_processados, state)`. -/
def processarDocumento (rede : String → Option String)
    (falha : PontoFalha → Bool) (acc : Nat × Estado) (cand : Candidato) :
    Nat × Estado :=
  let par := baixar_documento rede cand.url acc.2
  if conteudoVazio par.1 then
    (acc.1, { par.2 with docs_erro := par.2.docs_erro + 1 })
  else
    let metadados : Metadados :=
      { data_publicacao := none,
        orgao_emissor := some "COSIT - Receita Federal",
        numero_documento := some (cand.numero ++ "/" ++ toString cand.ano) }
    let par2 := salvar_documento falha cand.titulo (par.1.getD "") cand.url
      cand.identificador "consulta" (some metadados) par.2
    (acc.1 + 1, delay par2.2)

/-- The per-year body of `CositScraper.coletar`: fetch the index page,
skip the year when the fetch fails, else parse and process every
candidate. -/
def processarAno (rede : String → Option String)
    (sopa : String → List (String × String)) (falha : PontoFalha → Bool)
    (acc : Nat × Estado) (ano : Nat) : Nat × Estado :=
  let par := baixar_documento rede (construir_url_ano ano) acc.2
  if conteudoVazio par.1 then (acc.1, par.2)
  else
    (parsear_pagina_ano (sopa (par.1.getD "")) ano).foldl
      (processarDocumento rede falha) (acc.1, par.2)

/-- `CositScraper.coletar`: drive both years and report
`total_processados > 0`. -/
def coletar (rede : String → Option String)
    (sopa : String → List (String × String)) (falha : PontoFalha → Bool)
    (ano_atual : Nat) (e : Estado) : Bool × Estado :=
  let par := (obter_lista_anos ano_atual).foldl
    (processarAno rede sopa falha) (0, e)
  (decide (0 < par.1), par.2)

/-! ## Run controller (`_criar_log`, `_finalizar_log`, `executar`) -/

/-- `ScraperBase._criar_log`: open the run record with status started. -/
def criar_log (e : Estado) : Estado :=
  let par := agora e
  { par.2 with log := some {
      status := "iniciado", iniciado_em := par.1, finalizado_em := none,
      duracao_segundos := none, documentos_novos := 0,
      documentos_atualizados := 0, documentos_ignorados := 0,
      documentos_erro := 0, mensagem := "", erro_detalhe := "" } }

/-- `ScraperBase._finalizar_log`: stamp the end time, compute the
duration, copy the four counters, commit the log, then stamp the source's
last-harvest time from a second clock reading. -/
def finalizar_log (status mensagem erro : String) (e : Estado) : Estado :=
  match e.log with
  | none => e
  | some log =>
      let par := agora e
      let log1 := LogColeta.calcular_duracao
        { log with status := status, finalizado_em := some par.1 }
      let log2 := { log1 with
        documentos_novos := e.docs_novos,
        documentos_atualizados := e.docs_atualizados,
        documentos_ignorados := e.docs_ignorados,
        documentos_erro := e.docs_erro,
        mensagem := mensagem, erro_detalhe := erro }
      let e1 := registrarEvento .fechamento { par.2 with log := some log2 }
      let par2 := agora e1
      { par2.2 with fonte := { par2.2.fonte with ultima_coleta := some par2.1 } }

/-- `ScraperBase.executar`: validate, open the log, run the adapter's
harvest (which may complete with a flag or raise), finalize accordingly.
The harvest is passed as a state transformer so the controller is stated
once for every adapter. -/
def executar (validar : Estado → Bool)
    (coletarImpl : Estado → Except String Bool × Estado) (e : Estado) :
    Bool × Estado :=
  if validar e then
    let e1 := criar_log e
    match coletarImpl e1 with
    | (Except.ok true, e2) =>
        (true, finalizar_log "sucesso"
          ("Coleta concluída com sucesso. Total: "
            ++ toString (e2.docs_novos + e2.docs_atualizados)
            ++ " documentos.") "" e2)
    | (Except.ok false, e2) =>
        (false, finalizar_log "erro" "Coleta falhou sem exceção" "" e2)
    | (Except.error s, e2) =>
        (false, finalizar_log "erro" ("Erro durante execução: " ++ s) s e2)
  else (false, e)

/-- `CositScraper.coletar` seen through the `executar` interface: its own
`try/except` means it completes with a flag and never raises. -/
def coletarCosit (rede : String → Option String)
    (sopa : String → List (String × String)) (falha : PontoFalha → Bool)
    (ano_atual : Nat) (e : Estado) : Except String Bool × Estado :=
  let par := coletar rede sopa falha ano_atual e
  (Except.ok par.1, par.2)

/-! ## Trace observations used by the claims -/

/-- Count the content-store writes in a trace. -/
def contarEscritas (evs : List Evento) : Nat :=
  (evs.filter fun ev => match ev with | .escrita _ _ => true | _ => false).length

/-- Count the rate-limit pauses in a trace. -/
def contarPausas (evs : List Evento) : Nat :=
  (evs.filter fun ev => match ev with | .pausa => true | _ => false).length

/-- Count the outbound requests in a trace. -/
def contarRequisicoes (evs : List Evento) : Nat :=
  (evs.filter fun ev => match ev with | .requisicao _ => true | _ => false).length

/-- Count the run-log finalization commits in a trace. -/
def contarFechamentos (evs : List Evento) : Nat :=
  (evs.filter fun ev => match ev with | .fechamento => true | _ => false).length

/-- Scan for an outbound request issued while an earlier request has not
yet been followed by a pause; `pendente` says such a request is open.
`true` means some fetch after the first happened with no pause between. -/
def requisicaoSemPausa : List Evento → Bool → Bool
  | [], _ => false
  | Evento.requisicao _ :: resto, pendente =>
      pendente || requisicaoSemPausa resto true
  | Evento.pausa :: resto, _ => requisicaoSemPausa resto false
  | _ :: resto, pendente => requisicaoSemPausa resto pendente

/-- Every catalog row in the state points at a path the content store
holds. -/
def registrosCobertos (e : Estado) : Bool :=
  e.db.all fun d => (arquivoDe e.arquivos d.caminho_arquivo).isSome

/-- Walking a trace forward from a given store: every catalog commit
references a path already written (by the store or an earlier write of
the trace). -/
def gravacoesCobertas (arqs : List (String × String)) : List Evento → Bool
  | [] => true
  | Evento.escrita caminho conteudo :: resto =>
      gravacoesCobertas ((caminho, conteudo) :: arqs) resto
  | Evento.gravacao doc :: resto =>
      (arquivoDe arqs doc.caminho_arquivo).isSome && gravacoesCobertas arqs resto
  | _ :: resto => gravacoesCobertas arqs resto

/-! ## Concrete fixtures for witnesses and counterexamples -/

/-- A well-configured COSIT source. -/
def fonteExemplo : FonteDados :=
  { nome := "Cosit RF", tipo := "web", url_base := "http://gov",
    ativo := true, status := "ativo", ultima_coleta := none }

/-- A fresh scraper state over `fonteExemplo` with the identity clock. -/
def estadoExemplo : Estado :=
  { fonte := fonteExemplo, db := [], arquivos := [], log := none,
    docs_novos := 0, docs_atualizados := 0, docs_ignorados := 0,
    docs_erro := 0, tempo := fun n => n, tique := 0, eventos := [] }

/-- A badly configured source: the adapter expects type `web`. -/
def fonteInvalida : FonteDados :=
  { nome := "Cosit RF", tipo := "api", url_base := "http://gov",
    ativo := true, status := "ativo", ultima_coleta := none }

/-- A stored record whose fingerprint is the short placeholder string
`antigo`, hence necessarily different from any real 64-character digest. -/
def docExemplo : DocumentoFonte :=
  { fonte := "Cosit RF", titulo := "T0", tipo_documento := "consulta",
    url_origem := "http://u0", identificador_externo := "cosit_2024_0001",
    hash_conteudo := "antigo", caminho_arquivo := "data/raw/p0.html",
    tamanho_bytes := 2, data_publicacao := none, orgao_emissor := "",
    numero_documento := "", status := "coletado", versao := 1 }

/-- `estadoExemplo` with `docExemplo` already catalogued and its raw file
present in the content store. -/
def estadoComDoc : Estado :=
  { estadoExemplo with
    db := [docExemplo]
    arquivos := [("data/raw/p0.html", "v0")] }

/-- The oracle in which the update-branch file write raises. -/
def falhaNaEscrita : PontoFalha → Bool := fun p => p == PontoFalha.escritaAtual

/-- The oracle in which hashing raises. -/
def falhaNoHash : PontoFalha → Bool := fun p => p == PontoFalha.hash

/-- An adapter harvest that completes successfully at once. -/
def coletarTrivial : Estado → Except String Bool × Estado :=
  fun e => (Except.ok true, e)

theorem digestBytes_length (st : OitoPalavras) :
    (digestBytes st).length = 32 := by
  simp [digestBytes, palavraBytes]

theorem paraHex_length (bs : List Nat) :
    (paraHex bs).length = 2 * bs.length := by
  induction bs with
  | nil => rfl
  | cons b resto ih =>
      simp only [paraHex, List.flatMap_cons, String.length] at ih ⊢
      simp [List.length_append] at ih ⊢
      omega

/-- A computed fingerprint is always a 64-character hex string. -/
theorem calcular_hash_length (conteudo : String) :
    (DocumentoFonte.calcular_hash conteudo).length = 64 := by
  simp [DocumentoFonte.calcular_hash, paraHex_length, digestBytes_length]

/-! ## Helper lemmas -/

theorem semFalha_eq (p : PontoFalha) : semFalha p = false := rfl

theorem buscarDocumento_ausente_iff (db : List DocumentoFonte)
    (nome identificador : String) :
    buscarDocumento db nome identificador = .ausente ↔
      db.filter (fun d =>
        d.fonte == nome && d.identificador_externo == identificador) = [] := by
  unfold buscarDocumento
  rcases hf : db.filter (fun d =>
      d.fonte == nome && d.identificador_externo == identificador) with
    _ | ⟨d, _ | ⟨d2, resto⟩⟩ <;> simp [hf]

/-! ## Claims -/

/-- C4: for every source whose adapter configuration validation fails
(`validar_configuracao` returns false), `executar` returns a failure
result and the state is untouched: no `LogColeta` is created, no harvest
is attempted, and no source field is mutated. -/
theorem executar_config_invalida
    (coletarImpl : Estado → Except String Bool × Estado) (e : Estado)
    (h : validar_configuracao e.fonte = false) :
    executar (fun s => validar_configuracao s.fonte) coletarImpl e = (false, e) := by
  simp [executar, h]

/-- Witness for C4 at a source of the wrong type: validation fails and
the run leaves the state untouched. -/
theorem executar_config_invalida_witness :
    validar_configuracao fonteInvalida = false ∧
      executar (fun s => validar_configuracao s.fonte)
        (fun s => (Except.ok true, s))
        { estadoExemplo with fonte := fonteInvalida } =
        (false, { estadoExemplo with fonte := fonteInvalida }) :=
  ⟨by decide,
   executar_config_invalida (fun s => (Except.ok true, s))
     { estadoExemplo with fonte := fonteInvalida } (by decide)⟩

/-- C10: `_salvar_documento` never propagates an exception: whatever the
inputs and whichever internal primitive fails, either the call yields no
record and the error counter grows by exactly 1, or it yields the
affected record, leaves the error counter unchanged, and grows exactly
one of the new / updated / unchanged counters by exactly 1. -/
theorem salvar_documento_total (falha : PontoFalha → Bool)
    (titulo conteudo url identificador tipo_documento : String)
    (metadados : Option Metadados) (e : Estado) :
    (let r := salvar_documento falha titulo conteudo url identificador
        tipo_documento metadados e
     (r.1 = none ∧ r.2.docs_erro = e.docs_erro + 1) ∨
     (∃ d, r.1 = some d ∧ r.2.docs_erro = e.docs_erro ∧
       ((r.2.docs_novos = e.docs_novos + 1 ∧
         r.2.docs_atualizados = e.docs_atualizados ∧
         r.2.docs_ignorados = e.docs_ignorados) ∨
        (r.2.docs_novos = e.docs_novos ∧
         r.2.docs_atualizados = e.docs_atualizados + 1 ∧
         r.2.docs_ignorados = e.docs_ignorados) ∨
        (r.2.docs_novos = e.docs_novos ∧
         r.2.docs_atualizados = e.docs_atualizados ∧
         r.2.docs_ignorados = e.docs_ignorados + 1)))) := by
  unfold salvar_documento
  by_cases h1 : falha PontoFalha.hash = true
  · simp [h1, pontoErro]
  simp only [h1, Bool.false_eq_true, if_false]
  by_cases h2 : falha PontoFalha.consulta = true
  · simp [h2, pontoErro]
  simp only [h2, Bool.false_eq_true, if_false]
  rcases hb : buscarDocumento e.db e.fonte.nome identificador with d | _ | _
  · simp only [hb]
    by_cases h3 : (d.hash_conteudo == DocumentoFonte.calcular_hash conteudo) = true
    · simp [h3]
    simp only [h3, Bool.false_eq_true, if_false]
    by_cases h4 : falha PontoFalha.gravacaoAtual = true
    · simp [h4, pontoErro]
    simp only [h4, Bool.false_eq_true, if_false]
    by_cases h5 : falha PontoFalha.escritaAtual = true
    · simp [h5, pontoErro, gravarDocumento, registrarEvento]
    simp only [h5, Bool.false_eq_true, if_false]
    by_cases h6 : falha PontoFalha.gravacaoFinal = true
    · simp [h6, pontoErro, gravarDocumento, registrarEvento, escreverArquivo, agora]
    simp [h6, pontoErro, gravarDocumento, registrarEvento, escreverArquivo, agora]
  · simp only [hb]
    by_cases h7 : falha PontoFalha.escritaNova = true
    · simp [h7, pontoErro]
    simp only [h7, Bool.false_eq_true, if_false]
    by_cases h8 : falha PontoFalha.criacao = true
    · simp [h8, pontoErro, escreverArquivo, registrarEvento, agora]
    simp [h8, pontoErro, criarDocumento, escreverArquivo, registrarEvento, agora]
  · simp [hb, pontoErro]

theorem buscarDocumento_append_achado (db : List DocumentoFonte)
    (nome identificador : String) (doc : DocumentoFonte)
    (hdb : db.filter (fun d =>
      d.fonte == nome && d.identificador_externo == identificador) = [])
    (hn : doc.fonte = nome) (hi : doc.identificador_externo = identificador) :
    buscarDocumento (db ++ [doc]) nome identificador = .achado doc := by
  unfold buscarDocumento
  rw [List.filter_append, hdb]
  simp [hn, hi]

/-- C2: reconciling the same content twice under a fresh identifier is
Created then Unchanged: the first call counts one new document, the
second counts one unchanged document and touches neither the catalog nor
the content store, the stored record keeps version 1, and exactly one
content-store write happens across both calls. -/
theorem salvar_idempotente
    (titulo conteudo url identificador tipo_documento : String)
    (metadados : Option Metadados) (e : Estado)
    (h : buscarDocumento e.db e.fonte.nome identificador = .ausente) :
    (let r1 := salvar_documento semFalha titulo conteudo url identificador
        tipo_documento metadados e
     let r2 := salvar_documento semFalha titulo conteudo url identificador
        tipo_documento metadados r1.2
     r1.2.docs_novos = e.docs_novos + 1 ∧
     r1.2.docs_ignorados = e.docs_ignorados ∧
     r2.2.docs_ignorados = e.docs_ignorados + 1 ∧
     r2.2.docs_novos = r1.2.docs_novos ∧
     r2.2.docs_atualizados = r1.2.docs_atualizados ∧
     r2.2.docs_erro = r1.2.docs_erro ∧
     (∃ d, r2.1 = some d ∧ d.versao = 1 ∧
        buscarDocumento r2.2.db e.fonte.nome identificador = .achado d) ∧
     contarEscritas r2.2.eventos = contarEscritas e.eventos + 1 ∧
     r2.2.db = r1.2.db ∧ r2.2.arquivos = r1.2.arquivos) := by
  have hfilter := (buscarDocumento_ausente_iff e.db e.fonte.nome identificador).mp h
  simp only [salvar_documento, semFalha, Bool.false_eq_true, if_false, h]
  simp only [criarDocumento, escreverArquivo, registrarEvento, agora]
  rw [buscarDocumento_append_achado _ _ _ _ hfilter rfl rfl]
  simp [contarEscritas, List.filter_append]
  exact buscarDocumento_append_achado _ _ _ _ hfilter rfl rfl

/-- Witness for C2 on an empty catalog and a concrete candidate. -/
theorem salvar_idempotente_witness :
    buscarDocumento estadoExemplo.db estadoExemplo.fonte.nome
        "cosit_2024_0001" = .ausente ∧
      (let r1 := salvar_documento semFalha "T" "corpo" "http://u"
          "cosit_2024_0001" "consulta" none estadoExemplo
       let r2 := salvar_documento semFalha "T" "corpo" "http://u"
          "cosit_2024_0001" "consulta" none r1.2
       r1.2.docs_novos = estadoExemplo.docs_novos + 1 ∧
       r1.2.docs_ignorados = estadoExemplo.docs_ignorados ∧
       r2.2.docs_ignorados = estadoExemplo.docs_ignorados + 1 ∧
       r2.2.docs_novos = r1.2.docs_novos ∧
       r2.2.docs_atualizados = r1.2.docs_atualizados ∧
       r2.2.docs_erro = r1.2.docs_erro ∧
       (∃ d, r2.1 = some d ∧ d.versao = 1 ∧
          buscarDocumento r2.2.db estadoExemplo.fonte.nome
            "cosit_2024_0001" = .achado d) ∧
       contarEscritas r2.2.eventos = contarEscritas estadoExemplo.eventos + 1 ∧
       r2.2.db = r1.2.db ∧ r2.2.arquivos = r1.2.arquivos) :=
  ⟨rfl, salvar_idempotente "T" "corpo" "http://u" "cosit_2024_0001"
    "consulta" none estadoExemplo rfl⟩

theorem buscarDocumento_achado_mem (db : List DocumentoFonte)
    (nome identificador : String) (doc : DocumentoFonte)
    (h : buscarDocumento db nome identificador = .achado doc) :
    doc ∈ db ∧ doc.fonte = nome ∧ doc.identificador_externo = identificador := by
  unfold buscarDocumento at h
  rcases hf : db.filter (fun d =>
      d.fonte == nome && d.identificador_externo == identificador) with _ | ⟨d, _ | _⟩ <;>
    rw [hf] at h <;> simp at h
  subst h
  have hm : d ∈ db.filter (fun d =>
      d.fonte == nome && d.identificador_externo == identificador) := by
    rw [hf]; exact List.mem_singleton.mpr rfl
  have := List.mem_filter.mp hm
  simp at this
  exact ⟨this.1, this.2.1, this.2.2⟩

theorem aplicarMetadados_versao (m : Metadados) (doc : DocumentoFonte) :
    (aplicarMetadados m doc).versao = doc.versao := by
  unfold aplicarMetadados
  rcases hd : m.data_publicacao <;> rcases ho : m.orgao_emissor <;>
    rcases hn : m.numero_documento <;> simp

theorem aplicarMetadados_hash (m : Metadados) (doc : DocumentoFonte) :
    (aplicarMetadados m doc).hash_conteudo = doc.hash_conteudo := by
  unfold aplicarMetadados
  rcases hd : m.data_publicacao <;> rcases ho : m.orgao_emissor <;>
    rcases hn : m.numero_documento <;> simp

theorem aplicarMetadados_titulo (m : Metadados) (doc : DocumentoFonte) :
    (aplicarMetadados m doc).titulo = doc.titulo := by
  unfold aplicarMetadados
  rcases hd : m.data_publicacao <;> rcases ho : m.orgao_emissor <;>
    rcases hn : m.numero_documento <;> simp

theorem aplicarMetadados_url (m : Metadados) (doc : DocumentoFonte) :
    (aplicarMetadados m doc).url_origem = doc.url_origem := by
  unfold aplicarMetadados
  rcases hd : m.data_publicacao <;> rcases ho : m.orgao_emissor <;>
    rcases hn : m.numero_documento <;> simp

theorem aplicarMetadados_status (m : Metadados) (doc : DocumentoFonte) :
    (aplicarMetadados m doc).status = doc.status := by
  unfold aplicarMetadados
  rcases hd : m.data_publicacao <;> rcases ho : m.orgao_emissor <;>
    rcases hn : m.numero_documento <;> simp

theorem aplicarMetadados_fonte (m : Metadados) (doc : DocumentoFonte) :
    (aplicarMetadados m doc).fonte = doc.fonte := by
  unfold aplicarMetadados
  rcases hd : m.data_publicacao <;> rcases ho : m.orgao_emissor <;>
    rcases hn : m.numero_documento <;> simp

theorem aplicarMetadados_identificador (m : Metadados) (doc : DocumentoFonte) :
    (aplicarMetadados m doc).identificador_externo = doc.identificador_externo := by
  unfold aplicarMetadados
  rcases hd : m.data_publicacao <;> rcases ho : m.orgao_emissor <;>
    rcases hn : m.numero_documento <;> simp

theorem mem_map_replace (db : List DocumentoFonte) (novo velho : DocumentoFonte)
    (nome identificador : String) (hmem : velho ∈ db)
    (hvn : velho.fonte = nome) (hvi : velho.identificador_externo = identificador) :
    novo ∈ db.map (fun d =>
      if d.fonte == nome && d.identificador_externo == identificador
      then novo else d) := by
  have h2 := List.mem_map_of_mem (fun d =>
    if d.fonte == nome && d.identificador_externo == identificador
    then novo else d) hmem
  simpa [hvn, hvi] using h2

theorem aplicarMetadados_numero (m : Metadados) (doc : DocumentoFonte) (v : String)
    (hv : m.numero_documento = some v) :
    (aplicarMetadados m doc).numero_documento = v := by
  unfold aplicarMetadados
  rcases hd : m.data_publicacao <;> rcases ho : m.orgao_emissor <;> simp [hv]

theorem aplicarMetadados_orgao (m : Metadados) (doc : DocumentoFonte) (v : String)
    (hv : m.orgao_emissor = some v) :
    (aplicarMetadados m doc).orgao_emissor = v := by
  unfold aplicarMetadados
  rcases hd : m.data_publicacao <;> rcases hn : m.numero_documento <;> simp [hv]

theorem aplicarMetadados_data (m : Metadados) (doc : DocumentoFonte) (v : Nat)
    (hv : m.data_publicacao = some v) :
    (aplicarMetadados m doc).data_publicacao = some v := by
  unfold aplicarMetadados
  rcases ho : m.orgao_emissor <;> rcases hn : m.numero_documento <;> simp [hv]

/-- C3: when the candidate's fingerprint differs from the stored record's,
a fully successful `_salvar_documento` returns the updated record: version
grown by exactly 1, fingerprint / title / origin URL refreshed, status set
to coletado, every provided metadata key copied, the record committed in
place, the updated counter grown by 1, and no record added or removed. -/
theorem salvar_atualiza_incrementa_versao
    (titulo conteudo url identificador tipo_documento : String)
    (metadados : Option Metadados) (e : Estado) (doc : DocumentoFonte)
    (h : buscarDocumento e.db e.fonte.nome identificador = .achado doc)
    (hneq : doc.hash_conteudo ≠ DocumentoFonte.calcular_hash conteudo) :
    (let r := salvar_documento semFalha titulo conteudo url identificador
        tipo_documento metadados e
     ∃ d, r.1 = some d ∧
       d.versao = doc.versao + 1 ∧
       d.hash_conteudo = DocumentoFonte.calcular_hash conteudo ∧
       d.titulo = titulo ∧ d.url_origem = url ∧ d.status = "coletado" ∧
       (∀ m v, metadados = some m → m.numero_documento = some v →
          d.numero_documento = v) ∧
       (∀ m v, metadados = some m → m.orgao_emissor = some v →
          d.orgao_emissor = v) ∧
       (∀ m v, metadados = some m → m.data_publicacao = some v →
          d.data_publicacao = some v) ∧
       d ∈ r.2.db ∧
       r.2.docs_atualizados = e.docs_atualizados + 1 ∧
       r.2.docs_novos = e.docs_novos ∧ r.2.docs_erro = e.docs_erro ∧
       r.2.db.length = e.db.length) := by
  have hbe : (doc.hash_conteudo == DocumentoFonte.calcular_hash conteudo) = false := by
    simp [hneq]
  obtain ⟨hmem, hfn, hid⟩ := buscarDocumento_achado_mem _ _ _ _ h
  simp only [salvar_documento, semFalha, Bool.false_eq_true, if_false, h, hbe]
  simp only [gravarDocumento, escreverArquivo, registrarEvento, agora]
  rcases metadados with _ | m
  · refine ⟨_, rfl, ?_⟩
    repeat' apply And.intro
    all_goals first
      | rfl
      | trivial
      | (intro m v hm hv; cases hm)
      | exact mem_map_replace _ _ _ _ _
          (mem_map_replace _ _ _ _ _ hmem rfl rfl) rfl rfl
      | simp
  · simp only [aplicarMetadados_fonte, aplicarMetadados_identificador]
    refine ⟨_, rfl, ?_⟩
    repeat' apply And.intro
    all_goals first
      | rfl
      | trivial
      | exact aplicarMetadados_versao m _
      | exact aplicarMetadados_hash m _
      | exact aplicarMetadados_titulo m _
      | exact aplicarMetadados_url m _
      | exact aplicarMetadados_status m _
      | exact mem_map_replace _ _ _ _ _
          (mem_map_replace _ _ _ _ _ hmem rfl rfl)
          (by simp [aplicarMetadados_fonte]) (by simp [aplicarMetadados_identificador])
      | simp
    · intro m2 v hm hv
      subst hm
      exact aplicarMetadados_numero _ _ _ hv
    · intro m2 v hm hv
      subst hm
      exact aplicarMetadados_orgao _ _ _ hv
    · intro m2 v hm hv
      subst hm
      exact aplicarMetadados_data _ _ _ hv

/-- Witness for C3: updating `docExemplo` with fresh content. -/
theorem salvar_atualiza_incrementa_versao_witness :
    (buscarDocumento estadoComDoc.db estadoComDoc.fonte.nome
        "cosit_2024_0001" = .achado docExemplo ∧
     docExemplo.hash_conteudo ≠ DocumentoFonte.calcular_hash "corpo2") ∧
    (let r := salvar_documento semFalha "T1" "corpo2" "http://u1"
        "cosit_2024_0001" "consulta" none estadoComDoc
     ∃ d, r.1 = some d ∧
       d.versao = docExemplo.versao + 1 ∧
       d.hash_conteudo = DocumentoFonte.calcular_hash "corpo2" ∧
       d.titulo = "T1" ∧ d.url_origem = "http://u1" ∧ d.status = "coletado" ∧
       (∀ m v, (none : Option Metadados) = some m →
          m.numero_documento = some v → d.numero_documento = v) ∧
       (∀ m v, (none : Option Metadados) = some m →
          m.orgao_emissor = some v → d.orgao_emissor = v) ∧
       (∀ m v, (none : Option Metadados) = some m →
          m.data_publicacao = some v → d.data_publicacao = some v) ∧
       d ∈ r.2.db ∧
       r.2.docs_atualizados = estadoComDoc.docs_atualizados + 1 ∧
       r.2.docs_novos = estadoComDoc.docs_novos ∧
       r.2.docs_erro = estadoComDoc.docs_erro ∧
       r.2.db.length = estadoComDoc.db.length) :=
  ⟨⟨rfl, by
      intro hc
      have hl := calcular_hash_length "corpo2"
      rw [← hc] at hl
      simp only [docExemplo] at hl
      exact absurd hl (by decide)⟩,
   salvar_atualiza_incrementa_versao "T1" "corpo2" "http://u1"
     "cosit_2024_0001" "consulta" none estadoComDoc docExemplo rfl
     (by
       intro hc
       have hl := calcular_hash_length "corpo2"
       rw [← hc] at hl
       simp only [docExemplo] at hl
       exact absurd hl (by decide))⟩

theorem arquivoDe_cons_self (arqs : List (String × String)) (p c : String) :
    (arquivoDe ((p, c) :: arqs) p).isSome = true := by
  simp [arquivoDe, List.find?_cons_of_pos]

theorem arquivoDe_cons_mono (arqs : List (String × String)) (p c caminho : String)
    (h : (arquivoDe arqs caminho).isSome = true) :
    (arquivoDe ((p, c) :: arqs) caminho).isSome = true := by
  by_cases hp : (p == caminho) = true
  · simp [arquivoDe, List.find?_cons_of_pos, hp]
  · unfold arquivoDe at h ⊢
    rw [List.find?_cons_of_neg]
    · exact h
    · simp [hp]

theorem aplicarMetadados_caminho (m : Metadados) (doc : DocumentoFonte) :
    (aplicarMetadados m doc).caminho_arquivo = doc.caminho_arquivo := by
  unfold aplicarMetadados
  rcases hd : m.data_publicacao <;> rcases ho : m.orgao_emissor <;>
    rcases hn : m.numero_documento <;> simp

theorem cobertura_map_substituir (db : List DocumentoFonte)
    (arqs : List (String × String)) (novo : DocumentoFonte)
    (nome identificador : String)
    (h : db.all (fun d => (arquivoDe arqs d.caminho_arquivo).isSome) = true)
    (hnovo : (arquivoDe arqs novo.caminho_arquivo).isSome = true) :
    (db.map (fun d =>
      if d.fonte == nome && d.identificador_externo == identificador
      then novo else d)).all
        (fun d => (arquivoDe arqs d.caminho_arquivo).isSome) = true := by
  rw [List.all_eq_true] at h ⊢
  intro x hx
  obtain ⟨d0, hd0, rfl⟩ := List.mem_map.mp hx
  by_cases hc : (d0.fonte == nome && d0.identificador_externo == identificador) = true
  · simpa [hc] using hnovo
  · simpa [hc] using h d0 hd0

theorem cobertura_cons (db : List DocumentoFonte)
    (arqs : List (String × String)) (p c : String)
    (h : db.all (fun d => (arquivoDe arqs d.caminho_arquivo).isSome) = true) :
    db.all (fun d => (arquivoDe ((p, c) :: arqs) d.caminho_arquivo).isSome) = true := by
  rw [List.all_eq_true] at h ⊢
  intro x hx
  exact arquivoDe_cons_mono _ _ _ _ (h x hx)

theorem cobertura_append (db : List DocumentoFonte)
    (arqs : List (String × String)) (novo : DocumentoFonte)
    (h : db.all (fun d => (arquivoDe arqs d.caminho_arquivo).isSome) = true)
    (hnovo : (arquivoDe arqs novo.caminho_arquivo).isSome = true) :
    (db ++ [novo]).all
      (fun d => (arquivoDe arqs d.caminho_arquivo).isSome) = true := by
  rw [List.all_eq_true] at h ⊢
  intro x hx
  rcases List.mem_append.mp hx with hx1 | hx2
  · exact h x hx1
  · rw [List.mem_singleton.mp hx2]
    exact hnovo

/-- C5: whatever the inputs, the failure pattern and the prior state, one
`_salvar_documento` call preserves the invariant that every catalog row
points at a path the content store holds, and within the call every
catalog commit references a path already written: content is persisted
strictly before the catalog metadata that points at it. -/
theorem conteudo_antes_do_catalogo (falha : PontoFalha → Bool)
    (titulo conteudo url identificador tipo_documento : String)
    (metadados : Option Metadados) (e : Estado)
    (h : registrosCobertos e = true) :
    (let r := salvar_documento falha titulo conteudo url identificador
        tipo_documento metadados e
     registrosCobertos r.2 = true ∧
     gravacoesCobertas e.arquivos (r.2.eventos.drop e.eventos.length) = true) := by
  have hall : e.db.all (fun d => (arquivoDe e.arquivos d.caminho_arquivo).isSome) = true := by
    simpa [registrosCobertos] using h
  unfold salvar_documento
  by_cases h1 : falha PontoFalha.hash = true
  · simpa [h1, pontoErro, registrosCobertos, gravacoesCobertas] using h
  simp only [h1, Bool.false_eq_true, if_false]
  by_cases h2 : falha PontoFalha.consulta = true
  · simpa [h2, pontoErro, registrosCobertos, gravacoesCobertas] using h
  simp only [h2, Bool.false_eq_true, if_false]
  rcases hb : buscarDocumento e.db e.fonte.nome identificador with doc | _ | _
  · obtain ⟨hmem, hfn, hid⟩ := buscarDocumento_achado_mem _ _ _ _ hb
    have hcov : (arquivoDe e.arquivos doc.caminho_arquivo).isSome = true := by
      have := (List.all_eq_true.mp hall) doc hmem
      simpa using this
    simp only [hb]
    by_cases h3 : (doc.hash_conteudo == DocumentoFonte.calcular_hash conteudo) = true
    · simpa [h3, registrosCobertos, gravacoesCobertas] using h
    simp only [h3, Bool.false_eq_true, if_false]
    by_cases h4 : falha PontoFalha.gravacaoAtual = true
    · simpa [h4, pontoErro, registrosCobertos, gravacoesCobertas] using h
    simp only [h4, Bool.false_eq_true, if_false]
    rcases metadados with _ | m
    · by_cases h5 : falha PontoFalha.escritaAtual = true
      · simp only [h5, if_true, pontoErro, gravarDocumento, registrarEvento,
          registrosCobertos, gravacoesCobertas]
        refine ⟨cobertura_map_substituir _ _ _ _ _ hall ?_, ?_⟩
        · exact hcov
        · rw [List.drop_left]
          simp [gravacoesCobertas, hcov]
      · simp only [h5, Bool.false_eq_true, if_false]
        by_cases h6 : falha PontoFalha.gravacaoFinal = true
        · simp only [h6, if_true, pontoErro, gravarDocumento, escreverArquivo,
            registrarEvento, agora, registrosCobertos, gravacoesCobertas]
          refine ⟨cobertura_map_substituir _ _ _ _ _
              (cobertura_cons _ _ _ _ hall) ?_, ?_⟩
          · exact arquivoDe_cons_mono _ _ _ _ hcov
          · rw [List.append_assoc, List.drop_left]
            simp [gravacoesCobertas, hcov]
        · simp only [h6, Bool.false_eq_true, if_false, pontoErro,
            gravarDocumento, escreverArquivo, registrarEvento, agora,
            registrosCobertos, gravacoesCobertas]
          refine ⟨cobertura_map_substituir _ _ _ _ _
              (cobertura_map_substituir _ _ _ _ _
                (cobertura_cons _ _ _ _ hall)
                (arquivoDe_cons_mono _ _ _ _ hcov)) ?_, ?_⟩
          · exact arquivoDe_cons_self _ _ _
          · rw [List.append_assoc, List.append_assoc, List.drop_left]
            simp [gravacoesCobertas, hcov, arquivoDe_cons_self]
    · by_cases h5 : falha PontoFalha.escritaAtual = true
      · simp only [h5, if_true, pontoErro, gravarDocumento, registrarEvento,
          registrosCobertos, gravacoesCobertas]
        refine ⟨cobertura_map_substituir _ _ _ _ _ hall ?_, ?_⟩
        · simp only [aplicarMetadados_caminho]
          exact hcov
        · rw [List.drop_left]
          simp [gravacoesCobertas, hcov, aplicarMetadados_caminho]
      · simp only [h5, Bool.false_eq_true, if_false]
        by_cases h6 : falha PontoFalha.gravacaoFinal = true
        · simp only [h6, if_true, pontoErro, gravarDocumento, escreverArquivo,
            registrarEvento, agora, registrosCobertos, gravacoesCobertas]
          refine ⟨cobertura_map_substituir _ _ _ _ _
              (cobertura_cons _ _ _ _ hall) ?_, ?_⟩
          · simp only [aplicarMetadados_caminho]
            exact arquivoDe_cons_mono _ _ _ _ hcov
          · rw [List.append_assoc, List.drop_left]
            simp [gravacoesCobertas, hcov, aplicarMetadados_caminho]
        · simp only [h6, Bool.false_eq_true, if_false, pontoErro,
            gravarDocumento, escreverArquivo, registrarEvento, agora,
            registrosCobertos, gravacoesCobertas]
          refine ⟨cobertura_map_substituir _ _ _ _ _
              (cobertura_map_substituir _ _ _ _ _
                (cobertura_cons _ _ _ _ hall) ?_) ?_, ?_⟩
          · simp only [aplicarMetadados_caminho]
            exact arquivoDe_cons_mono _ _ _ _ hcov
          · exact arquivoDe_cons_self _ _ _
          · rw [List.append_assoc, List.append_assoc, List.drop_left]
            simp [gravacoesCobertas, hcov, aplicarMetadados_caminho,
              arquivoDe_cons_self]
  · simp only [hb]
    by_cases h7 : falha PontoFalha.escritaNova = true
    · simp only [h7, if_true, pontoErro]
      exact ⟨by simpa [registrosCobertos] using hall, by rw [List.drop_length]; rfl⟩
    simp only [h7, Bool.false_eq_true, if_false]
    by_cases h8 : falha PontoFalha.criacao = true
    · simp only [h8, if_true, pontoErro, escreverArquivo, registrarEvento, agora]
      refine ⟨?_, ?_⟩
      · simp only [registrosCobertos]
        exact cobertura_cons _ _ _ _ hall
      · rw [List.drop_left]
        rfl
    · simp only [h8, Bool.false_eq_true, if_false, criarDocumento,
        escreverArquivo, registrarEvento, agora]
      refine ⟨?_, ?_⟩
      · simp only [registrosCobertos]
        exact cobertura_append _ _ _ (cobertura_cons _ _ _ _ hall)
          (arquivoDe_cons_self _ _ _)
      · rw [List.append_assoc, List.drop_left]
        simp only [gravacoesCobertas, Bool.and_true]
        exact arquivoDe_cons_self _ _ _
  · simpa [hb, pontoErro, registrosCobertos, gravacoesCobertas] using h

/-- Witness for C5: creating a document over the empty catalog and store. -/
theorem conteudo_antes_do_catalogo_witness :
    registrosCobertos estadoExemplo = true ∧
      (let r := salvar_documento semFalha "T" "corpo" "http://u"
          "cosit_2024_0001" "consulta" none estadoExemplo
       registrosCobertos r.2 = true ∧
       gravacoesCobertas estadoExemplo.arquivos
         (r.2.eventos.drop estadoExemplo.eventos.length) = true) :=
  ⟨rfl, conteudo_antes_do_catalogo semFalha "T" "corpo" "http://u"
    "cosit_2024_0001" "consulta" none estadoExemplo rfl⟩

/-- C9: a link whose text contains no parseable numeric identifier (the
`nº N` pattern fails) yields no candidate: extraction returns none, the
page parse is unchanged by the link's presence, and consequently the
candidate loop — the only place run counters move — is unchanged too, so
no counter is incremented for it. -/
theorem link_sem_numero_ignorado (href texto : String) (ano : Nat)
    (l1 l2 : List (String × String))
    (h : buscarNumero texto.toList = none) :
    extrair_info_documento href texto ano = none ∧
    parsear_pagina_ano (l1 ++ (href, texto) :: l2) ano =
      parsear_pagina_ano (l1 ++ l2) ano ∧
    (∀ (rede : String → Option String) (falha : PontoFalha → Bool)
       (acc : Nat × Estado),
       (parsear_pagina_ano (l1 ++ (href, texto) :: l2) ano).foldl
         (processarDocumento rede falha) acc =
       (parsear_pagina_ano (l1 ++ l2) ano).foldl
         (processarDocumento rede falha) acc) := by
  have h0 : buscarNumero texto.data = none := h
  have h1 : extrair_info_documento href texto ano = none := by
    simp [extrair_info_documento, h0]
  have h2 : parsear_pagina_ano (l1 ++ (href, texto) :: l2) ano =
      parsear_pagina_ano (l1 ++ l2) ano := by
    unfold parsear_pagina_ano
    rw [List.filter_append, List.filter_append, List.filter_cons]
    by_cases hf : e_solucao_consulta texto href = true
    · simp [hf, List.filterMap_append, h1]
    · simp [hf, List.filterMap_append]
  exact ⟨h1, h2, fun rede falha acc => by rw [h2]⟩

set_option maxRecDepth 10000 in
/-- C1 counterexample: with a failure injected at the update-branch file
write, `_salvar_documento` returns Failed (none) yet the stored record has
already been changed: its version was bumped from 1 to 2 and its title
overwritten, refuting "the stored record is left exactly as it was". -/
theorem salvar_nao_atomico_contraexemplo :
    (let r := salvar_documento falhaNaEscrita "T1" "corpo2" "http://u1"
        "cosit_2024_0001" "consulta" none estadoComDoc
     r.1 = none ∧
     estadoComDoc.db.map DocumentoFonte.versao = [1] ∧
     r.2.db.map DocumentoFonte.versao = [2] ∧
     estadoComDoc.db.map DocumentoFonte.titulo = ["T0"] ∧
     r.2.db.map DocumentoFonte.titulo = ["T1"]) := by
  decide

/-- C1 amended: if the failure strikes at hashing, at the catalog lookup,
or at the first record save — that is, before anything was committed —
then `_salvar_documento` returns Failed (none) and the state is untouched
except for the error counter. (An error after the first save, as the
counterexample shows, leaves that save's field updates committed.) -/
theorem salvar_falha_precoce_sem_efeito (falha : PontoFalha → Bool)
    (titulo conteudo url identificador tipo_documento : String)
    (metadados : Option Metadados) (e : Estado) (doc : DocumentoFonte)
    (h : buscarDocumento e.db e.fonte.nome identificador = .achado doc)
    (hneq : doc.hash_conteudo ≠ DocumentoFonte.calcular_hash conteudo)
    (hfalha : falha PontoFalha.hash = true ∨ falha PontoFalha.consulta = true ∨
      falha PontoFalha.gravacaoAtual = true) :
    salvar_documento falha titulo conteudo url identificador tipo_documento
      metadados e = (none, { e with docs_erro := e.docs_erro + 1 }) := by
  have hbe : (doc.hash_conteudo == DocumentoFonte.calcular_hash conteudo) = false := by
    simp [hneq]
  unfold salvar_documento
  by_cases h1 : falha PontoFalha.hash = true
  · simp [h1, pontoErro]
  simp only [h1, Bool.false_eq_true, if_false]
  by_cases h2 : falha PontoFalha.consulta = true
  · simp [h2, pontoErro]
  simp only [h2, Bool.false_eq_true, if_false, h, hbe]
  by_cases h4 : falha PontoFalha.gravacaoAtual = true
  · simp [h4, pontoErro]
  rcases hfalha with hf | hf | hf
  · exact absurd hf h1
  · exact absurd hf h2
  · exact absurd hf h4

/-- Witness for the amended C1: a hashing failure over `estadoComDoc`
leaves everything but the error counter untouched. -/
theorem salvar_falha_precoce_sem_efeito_witness :
    (buscarDocumento estadoComDoc.db estadoComDoc.fonte.nome
        "cosit_2024_0001" = .achado docExemplo ∧
     docExemplo.hash_conteudo ≠ DocumentoFonte.calcular_hash "corpo2" ∧
     falhaNoHash PontoFalha.hash = true) ∧
    salvar_documento falhaNoHash "T1" "corpo2" "http://u1" "cosit_2024_0001"
      "consulta" none estadoComDoc =
      (none, { estadoComDoc with docs_erro := estadoComDoc.docs_erro + 1 }) :=
  ⟨⟨rfl, by
      intro hc
      have hl := calcular_hash_length "corpo2"
      rw [← hc] at hl
      simp only [docExemplo] at hl
      exact absurd hl (by decide), rfl⟩,
   salvar_falha_precoce_sem_efeito falhaNoHash "T1" "corpo2" "http://u1"
     "cosit_2024_0001" "consulta" none estadoComDoc docExemplo rfl
     (by
       intro hc
       have hl := calcular_hash_length "corpo2"
       rw [← hc] at hl
       simp only [docExemplo] at hl
       exact absurd hl (by decide))
     (Or.inl rfl)⟩

/-- C7 counterexample: under the identity clock a finished run has end
time 1 but last-harvest time 2 — `_finalizar_log` reads the clock twice,
so the source's last-harvest time is not equal to the run's end time. -/
theorem ultima_coleta_difere_contraexemplo :
    (let r := executar (fun s => validar_configuracao s.fonte)
        coletarTrivial estadoExemplo
     r.2.log.map LogColeta.finalizado_em = some (some 1) ∧
     r.2.fonte.ultima_coleta = some 2 ∧
     ¬ r.2.log.map LogColeta.finalizado_em = some r.2.fonte.ultima_coleta) := by
  decide

/-- C7 amended: for every run that opens a RunRecord (with an adapter
that neither touches the log nor finalizes), finalization happens exactly
once — exactly one finalization commit is added, the end time and the
duration (end − start) are set there — and the source's last-harvest time
is a fresh clock reading taken just after the end-time reading: at least
the end time under a monotone clock, but not necessarily equal to it. -/
theorem finalizacao_unica (validar : Estado → Bool)
    (coletarImpl : Estado → Except String Bool × Estado) (e : Estado)
    (res : Except String Bool) (e2 : Estado)
    (hv : validar e = true)
    (hc : coletarImpl (criar_log e) = (res, e2))
    (hlog : e2.log = (criar_log e).log)
    (hfech : contarFechamentos e2.eventos = contarFechamentos e.eventos)
    (htempo : e2.tempo = e.tempo)
    (hmono : ∀ i j, i ≤ j → e.tempo i ≤ e.tempo j) :
    (let r := executar validar coletarImpl e
     ∃ L, r.2.log = some L ∧
       L.iniciado_em = e.tempo e.tique ∧
       L.finalizado_em = some (e.tempo e2.tique) ∧
       L.duracao_segundos =
         some ((e.tempo e2.tique : Int) - (e.tempo e.tique : Int)) ∧
       r.2.fonte.ultima_coleta = some (e.tempo (e2.tique + 1)) ∧
       e.tempo e2.tique ≤ e.tempo (e2.tique + 1) ∧
       contarFechamentos r.2.eventos = contarFechamentos e.eventos + 1) := by
  have hm : e.tempo e2.tique ≤ e.tempo (e2.tique + 1) :=
    hmono _ _ (Nat.le_succ _)
  have hlog2 : e2.log = some {
      status := "iniciado", iniciado_em := e.tempo e.tique,
      finalizado_em := none, duracao_segundos := none, documentos_novos := 0,
      documentos_atualizados := 0, documentos_ignorados := 0,
      documentos_erro := 0, mensagem := "", erro_detalhe := "" } := by
    rw [hlog]; rfl
  simp only [contarFechamentos] at hfech ⊢
  unfold executar
  simp only [hv, if_true, hc]
  rcases res with s | b
  · simp [finalizar_log, hlog2, agora, htempo, registrarEvento,
      LogColeta.calcular_duracao, contarFechamentos, List.filter_append,
      hfech, hm]
  · rcases b <;>
      simp [finalizar_log, hlog2, agora, htempo, registrarEvento,
        LogColeta.calcular_duracao, contarFechamentos, List.filter_append,
        hfech, hm]

/-- Witness for the amended C7 on the identity clock. -/
theorem finalizacao_unica_witness :
    ((fun s => validar_configuracao s.fonte) estadoExemplo = true ∧
     coletarTrivial (criar_log estadoExemplo) =
       (Except.ok true, criar_log estadoExemplo) ∧
     (criar_log estadoExemplo).log = (criar_log estadoExemplo).log ∧
     contarFechamentos (criar_log estadoExemplo).eventos =
       contarFechamentos estadoExemplo.eventos ∧
     (criar_log estadoExemplo).tempo = estadoExemplo.tempo ∧
     (∀ i j, i ≤ j → estadoExemplo.tempo i ≤ estadoExemplo.tempo j)) ∧
    (let r := executar (fun s => validar_configuracao s.fonte)
        coletarTrivial estadoExemplo
     ∃ L, r.2.log = some L ∧
       L.iniciado_em = estadoExemplo.tempo estadoExemplo.tique ∧
       L.finalizado_em =
         some (estadoExemplo.tempo (criar_log estadoExemplo).tique) ∧
       L.duracao_segundos =
         some ((estadoExemplo.tempo (criar_log estadoExemplo).tique : Int) -
           (estadoExemplo.tempo estadoExemplo.tique : Int)) ∧
       r.2.fonte.ultima_coleta =
         some (estadoExemplo.tempo ((criar_log estadoExemplo).tique + 1)) ∧
       estadoExemplo.tempo (criar_log estadoExemplo).tique ≤
         estadoExemplo.tempo ((criar_log estadoExemplo).tique + 1) ∧
       contarFechamentos r.2.eventos =
         contarFechamentos estadoExemplo.eventos + 1) :=
  ⟨⟨rfl, rfl, rfl, rfl, rfl, fun _ _ h => h⟩,
   finalizacao_unica (fun s => validar_configuracao s.fonte) coletarTrivial
     estadoExemplo (Except.ok true) (criar_log estadoExemplo) rfl rfl rfl rfl
     rfl (fun _ _ h => h)⟩

/-- C8 counterexample: a run whose two index fetches fail discovers zero
candidates and completes without raising (the embedded `coletar` is total
and reports false), yet `executar` finalizes the RunRecord with status
erro, not sucesso, refuting the claim for zero-candidate runs. The
counters are still stored (all zero). -/
theorem execucao_vazia_finaliza_erro_contraexemplo :
    (coletar (fun _ => none) (fun _ => []) semFalha 2024
        (criar_log estadoExemplo)).1 = false ∧
    (let r := executar (fun s => validar_configuracao s.fonte)
        (coletarCosit (fun _ => none) (fun _ => []) semFalha 2024)
        estadoExemplo
     r.1 = false ∧
     r.2.log.map LogColeta.status = some "erro" ∧
     r.2.log.map LogColeta.documentos_novos = some 0 ∧
     r.2.log.map LogColeta.documentos_erro = some 0) := by
  decide

/-- C8 amended: a run whose harvest completes without raising is
finalized with status sucesso exactly when the adapter reported success —
for the COSIT adapter, when at least one candidate was downloaded and
processed — and with status erro otherwise; the four accumulated counters
are stored in the RunRecord either way. -/
theorem finalizacao_status_conforme_coleta (validar : Estado → Bool)
    (coletarImpl : Estado → Except String Bool × Estado) (e : Estado)
    (b : Bool) (e2 : Estado)
    (hv : validar e = true)
    (hc : coletarImpl (criar_log e) = (Except.ok b, e2))
    (hlog : e2.log = (criar_log e).log) :
    (let r := executar validar coletarImpl e
     r.1 = b ∧
     ∃ L, r.2.log = some L ∧
       L.status = (if b then "sucesso" else "erro") ∧
       L.documentos_novos = e2.docs_novos ∧
       L.documentos_atualizados = e2.docs_atualizados ∧
       L.documentos_ignorados = e2.docs_ignorados ∧
       L.documentos_erro = e2.docs_erro) := by
  have hlog2 : e2.log = some {
      status := "iniciado", iniciado_em := e.tempo e.tique,
      finalizado_em := none, duracao_segundos := none, documentos_novos := 0,
      documentos_atualizados := 0, documentos_ignorados := 0,
      documentos_erro := 0, mensagem := "", erro_detalhe := "" } := by
    rw [hlog]; rfl
  unfold executar
  simp only [hv, if_true, hc]
  rcases b <;>
    simp [finalizar_log, hlog2, agora, registrarEvento,
      LogColeta.calcular_duracao]

/-- Witness for the amended C8 with an adapter reporting success. -/
theorem finalizacao_status_conforme_coleta_witness :
    ((fun s => validar_configuracao s.fonte) estadoExemplo = true ∧
     coletarTrivial (criar_log estadoExemplo) =
       (Except.ok true, criar_log estadoExemplo) ∧
     (criar_log estadoExemplo).log = (criar_log estadoExemplo).log) ∧
    (let r := executar (fun s => validar_configuracao s.fonte)
        coletarTrivial estadoExemplo
     r.1 = true ∧
     ∃ L, r.2.log = some L ∧
       L.status = (if true then "sucesso" else "erro") ∧
       L.documentos_novos = (criar_log estadoExemplo).docs_novos ∧
       L.documentos_atualizados = (criar_log estadoExemplo).docs_atualizados ∧
       L.documentos_ignorados = (criar_log estadoExemplo).docs_ignorados ∧
       L.documentos_erro = (criar_log estadoExemplo).docs_erro) :=
  ⟨⟨rfl, rfl, rfl⟩,
   finalizacao_status_conforme_coleta (fun s => validar_configuracao s.fonte)
     coletarTrivial estadoExemplo true (criar_log estadoExemplo) rfl rfl rfl⟩

/-- C6 counterexample: in a run whose two index fetches fail, the trace
holds two outbound requests and no pause at all — the second fetch occurs
with no pause after the first, refuting "the pause is taken between every
pair of consecutive outbound fetches". -/
theorem pausa_nem_sempre_entre_requisicoes_contraexemplo :
    (let r := coletar (fun _ => none) (fun _ => []) semFalha 2024 estadoExemplo
     contarRequisicoes r.2.eventos = 2 ∧
     contarPausas r.2.eventos = 0 ∧
     requisicaoSemPausa r.2.eventos false = true) := by
  decide

theorem contarPausas_append (l1 l2 : List Evento) :
    contarPausas (l1 ++ l2) = contarPausas l1 + contarPausas l2 := by
  simp [contarPausas, List.filter_append]

theorem salvar_sem_pausa (falha : PontoFalha → Bool)
    (titulo conteudo url identificador tipo_documento : String)
    (metadados : Option Metadados) (e : Estado) :
    contarPausas (salvar_documento falha titulo conteudo url identificador
      tipo_documento metadados e).2.eventos = contarPausas e.eventos := by
  unfold salvar_documento
  by_cases h1 : falha PontoFalha.hash = true
  · simp [h1, pontoErro]
  simp only [h1, Bool.false_eq_true, if_false]
  by_cases h2 : falha PontoFalha.consulta = true
  · simp [h2, pontoErro]
  simp only [h2, Bool.false_eq_true, if_false]
  rcases hb : buscarDocumento e.db e.fonte.nome identificador with d | _ | _
  · simp only [hb]
    by_cases h3 : (d.hash_conteudo == DocumentoFonte.calcular_hash conteudo) = true
    · simp [h3]
    simp only [h3, Bool.false_eq_true, if_false]
    by_cases h4 : falha PontoFalha.gravacaoAtual = true
    · simp [h4, pontoErro]
    simp only [h4, Bool.false_eq_true, if_false]
    by_cases h5 : falha PontoFalha.escritaAtual = true
    · simp [h5, pontoErro, gravarDocumento, registrarEvento,
        contarPausas_append, contarPausas]
    simp only [h5, Bool.false_eq_true, if_false]
    by_cases h6 : falha PontoFalha.gravacaoFinal = true
    · simp [h6, pontoErro, gravarDocumento, escreverArquivo, registrarEvento,
        agora, contarPausas_append, contarPausas]
    · simp [h6, pontoErro, gravarDocumento, escreverArquivo, registrarEvento,
        agora, contarPausas_append, contarPausas]
  · simp only [hb]
    by_cases h7 : falha PontoFalha.escritaNova = true
    · simp [h7, pontoErro]
    simp only [h7, Bool.false_eq_true, if_false]
    by_cases h8 : falha PontoFalha.criacao = true
    · simp [h8, pontoErro, escreverArquivo, registrarEvento, agora,
        contarPausas_append, contarPausas]
    · simp [h8, pontoErro, criarDocumento, escreverArquivo, registrarEvento,
        agora, contarPausas_append, contarPausas]
  · simp [hb, pontoErro]

theorem processarDocumento_pausas (rede : String → Option String)
    (falha : PontoFalha → Bool) (acc : Nat × Estado) (cand : Candidato) :
    contarPausas (processarDocumento rede falha acc cand).2.eventos + acc.1 =
      contarPausas acc.2.eventos + (processarDocumento rede falha acc cand).1 := by
  unfold processarDocumento baixar_documento
  by_cases hc : conteudoVazio (rede cand.url) = true
  · simp [hc, registrarEvento, contarPausas_append, contarPausas]
  · simp only [hc, Bool.false_eq_true, if_false, delay, registrarEvento]
    rw [contarPausas_append, salvar_sem_pausa]
    simp [contarPausas_append, contarPausas, registrarEvento]
    omega

theorem fold_documentos_pausas (rede : String → Option String)
    (falha : PontoFalha → Bool) (docs : List Candidato) :
    ∀ acc : Nat × Estado,
      contarPausas (docs.foldl (processarDocumento rede falha) acc).2.eventos
          + acc.1 =
        contarPausas acc.2.eventos +
          (docs.foldl (processarDocumento rede falha) acc).1 := by
  induction docs with
  | nil => intro acc; simp
  | cons c resto ih =>
      intro acc
      simp only [List.foldl_cons]
      have h1 := processarDocumento_pausas rede falha acc c
      have h2 := ih (processarDocumento rede falha acc c)
      omega

theorem processarAno_pausas (rede : String → Option String)
    (sopa : String → List (String × String)) (falha : PontoFalha → Bool)
    (acc : Nat × Estado) (ano : Nat) :
    contarPausas (processarAno rede sopa falha acc ano).2.eventos + acc.1 =
      contarPausas acc.2.eventos + (processarAno rede sopa falha acc ano).1 := by
  unfold processarAno baixar_documento
  by_cases hv : conteudoVazio (rede (construir_url_ano ano)) = true
  · simp [hv, registrarEvento, contarPausas_append, contarPausas]
  · simp only [hv, Bool.false_eq_true, if_false, registrarEvento]
    have h2 := fold_documentos_pausas rede falha
      (parsear_pagina_ano (sopa ((rede (construir_url_ano ano)).getD "")) ano)
      (acc.1, registrarEvento (.requisicao (construir_url_ano ano)) acc.2)
    simp only [registrarEvento] at h2
    simp only [contarPausas_append, contarPausas] at h2 ⊢
    simp at h2 ⊢
    omega

/-- C6 amended: the rate-limit pause is taken exactly once per
successfully downloaded and processed document — the run adds exactly T
pauses where T is the number of processed documents, and reports success
iff T > 0. Index fetches and failed downloads are not followed by a
pause, so consecutive fetches can occur with no pause between them (see
the counterexample). -/
theorem pausa_por_documento_processado (rede : String → Option String)
    (sopa : String → List (String × String)) (falha : PontoFalha → Bool)
    (ano_atual : Nat) (e : Estado) :
    (let r := coletar rede sopa falha ano_atual e
     ∃ T, contarPausas r.2.eventos = contarPausas e.eventos + T ∧
       r.1 = decide (0 < T)) := by
  unfold coletar obter_lista_anos
  simp only [List.foldl_cons, List.foldl_nil]
  have h1 := processarAno_pausas rede sopa falha (0, e) ano_atual
  have h2 := processarAno_pausas rede sopa falha
    (processarAno rede sopa falha (0, e) ano_atual) (ano_atual - 1)
  simp only [] at h1 h2
  refine ⟨(processarAno rede sopa falha
    (processarAno rede sopa falha (0, e) ano_atual) (ano_atual - 1)).1,
    by omega, rfl⟩

/-- Witness for C9 on a page holding one good link and one numberless
link. -/
theorem link_sem_numero_ignorado_witness :
    buscarNumero "Solução de Consulta".toList = none ∧
      (extrair_info_documento "/b" "Solução de Consulta" 2024 = none ∧
       parsear_pagina_ano ([("/a.pdf", "Solução de Consulta nº 7")] ++
         ("/b", "Solução de Consulta") :: []) 2024 =
         parsear_pagina_ano
           ([("/a.pdf", "Solução de Consulta nº 7")] ++ []) 2024 ∧
       (∀ (rede : String → Option String) (falha : PontoFalha → Bool)
          (acc : Nat × Estado),
          (parsear_pagina_ano ([("/a.pdf", "Solução de Consulta nº 7")] ++
            ("/b", "Solução de Consulta") :: []) 2024).foldl
            (processarDocumento rede falha) acc =
          (parsear_pagina_ano
            ([("/a.pdf", "Solução de Consulta nº 7")] ++ []) 2024).foldl
            (processarDocumento rede falha) acc)) :=
  ⟨by decide, link_sem_numero_ignorado "/b" "Solução de Consulta" 2024
    [("/a.pdf", "Solução de Consulta nº 7")] [] (by decide)⟩
